import Mathlib

/-!
Verification of the "No Lose" WhatsApp synchronization and connection-state
reconciliation subsystem.

The repository's frontend (TypeScript, `frontend/src/lib/api.ts` and the
`whatsapp`, `whatsapp/sync` and `dashboard` pages) is embedded directly from
source. The FastAPI backend service layer (`backend/app/services/evolution.py`,
`backend/app/api/evolution.py`) is not part of the source tree available here;
where a property is decided by that layer, the definition is modelled from the
specification (each such definition says so in its doc comment).
-/

/- ### Instance state (backend `EvolutionInstance` model, per the data model docs) -/

/-- Modelled from the spec: the backend `EvolutionInstance` row
(`backend/app/models/evolution.py` is absent from the source tree; the data
model is described in the project guide and deployment plan): connection
status string, QR payload, QR timestamp, phone number, profile name, and
last-connected timestamp. The status is kept as a raw string so that the
canonical-vocabulary invariant is a real statement, not a typing triviality. -/
structure EvolutionInstance where
  status : String
  qr_code : Option String
  qr_code_updated_at : Option Nat
  phone_number : Option String
  profile_name : Option String
  last_connected_at : Option Nat
deriving DecidableEq, Repr

/-- The four canonical connection states of the `InstanceStatus` union in
`frontend/src/lib/api.ts` (status: "disconnected" | "qr" | "connecting" |
"connected"). -/
def canonicalStates : List String :=
  ["disconnected", "qr", "connecting", "connected"]

/-- A status string is canonical when it is one of the four states. -/
def isCanonical (s : String) : Bool :=
  s == "disconnected" || s == "qr" || s == "connecting" || s == "connected"

/-- Modelled from the spec: with no Instance row yet, the implicit state is
`disconnected` with every other field absent. -/
def initialInstance : EvolutionInstance :=
  { status := "disconnected"
    qr_code := none
    qr_code_updated_at := none
    phone_number := none
    profile_name := none
    last_connected_at := none }

/- ### Message storage and the dedup/upsert layer -/

/-- Modelled from the spec: a stored `Message` row
(`backend/app/models/whatsapp.py` is absent from the source tree). Identity
key is `evolution_key_id`, the gateway-issued external message identifier
declared unique in the deployment plan; the remaining fields follow the data
model section (type, content, direction, delivery status, timestamp, source
tag, owning contact). -/
structure StoredMessage where
  evolution_key_id : String
  msgType : String
  content : Option String
  is_outbound : Bool
  deliveryStatus : String
  timestamp : Option Nat
  source : String
  contact_id : Nat
deriving DecidableEq, Repr

/-- Look up a stored message by its external message identifier. -/
def findByKey (store : List StoredMessage) (k : String) : Option StoredMessage :=
  store.find? (fun m => m.evolution_key_id == k)

/-- Modelled from the spec: `upsertMessage(candidate)` of the Dedup/Upsert
Layer (`sync_message_to_db` in the absent `backend/app/services/evolution.py`):
look up the existing Message by `evolution_key_id`; if present the operation
is a no-op returning the existing record; if absent, insert the candidate.
Returns the new store together with the row the operation yields. -/
def upsertMessage (store : List StoredMessage) (cand : StoredMessage) :
    List StoredMessage × StoredMessage :=
  match findByKey store cand.evolution_key_id with
  | some existing => (store, existing)
  | none => (store ++ [cand], cand)

/-- Upsert a batch of candidate messages in order, counting how many were
actually inserted (duplicates are skipped). -/
def upsertAllMessages (store : List StoredMessage) (cands : List StoredMessage) :
    List StoredMessage × Nat :=
  cands.foldl
    (fun acc c =>
      let r := upsertMessage acc.1 c
      (r.1, acc.2 + (if (findByKey acc.1 c.evolution_key_id).isNone then 1 else 0)))
    (store, 0)

/- ### State Reconciler operations (backend, modelled from the spec) -/

/-- Modelled from the spec: the backend's mapping of gateway status vocabulary
(Evolution API `connectionState` values such as "open", "connecting",
"close") to the four canonical states; the mapping itself lives in the absent
`backend/app/services/evolution.py`. The spec only guarantees totality into
the four canonical states, so every unknown value maps to `disconnected`. -/
def mapGatewayStatus (raw : String) : String :=
  if raw == "open" then "connected"
  else if raw == "connecting" then "connecting"
  else if raw == "close" then "disconnected"
  else "disconnected"

/-- Modelled from the spec: the local state change of `disconnect(user)` —
status forced to `disconnected`, `qr_code` and `phone_number` cleared. -/
def disconnectInstance (i : EvolutionInstance) : EvolutionInstance :=
  { i with status := "disconnected", qr_code := none, phone_number := none }

/-- Outcome of the gateway logout call inside `disconnect`. -/
inductive GatewayResult
  | ok
  | gatewayUnavailable
  | gatewayRejected
  | gatewayAuthError
deriving DecidableEq, Repr

/-- Result record of the full disconnect handler: the new instance row,
whether a gateway-side failure was logged, and whether the handler surfaced
a blocking error to the caller. -/
structure DisconnectOutcome where
  inst : EvolutionInstance
  loggedGatewayFailure : Bool
  isError : Bool
deriving DecidableEq, Repr

/-- Modelled from the spec: `disconnect(user)` calls logout and then
unconditionally forces the local state to disconnected; a gateway failure is
logged, never surfaced as a blocking error (the handler itself lives in the
absent `backend/app/api/evolution.py`). -/
def disconnectHandler (gw : GatewayResult) (i : EvolutionInstance) : DisconnectOutcome :=
  { inst := disconnectInstance i
    loggedGatewayFailure := gw != GatewayResult.ok
    isError := false }

/-- Modelled from the spec: `refreshQr(user)` — valid only while the current
status is `qr` or `connecting`; stores the freshly fetched QR payload and its
timestamp and leaves the status at `qr`; on any other status the operation is
rejected and no state change happens (`none`). -/
def refreshQrInstance (q : String) (t : Nat) (i : EvolutionInstance) :
    Option EvolutionInstance :=
  if i.status == "qr" || i.status == "connecting" then
    some { i with status := "qr", qr_code := some q, qr_code_updated_at := some t }
  else
    none

/-- Modelled from the spec: `pollStatus(user)` — maps the raw gateway status
to a canonical state; on a transition into `connected` it stamps
`last_connected_at` and clears `qr_code`; otherwise only the status field is
rewritten (the handler lives in the absent backend service layer). -/
def pollStatusInstance (raw : String) (now : Nat) (i : EvolutionInstance) :
    EvolutionInstance :=
  let st := mapGatewayStatus raw
  if st == "connected" && i.status != "connected" then
    { i with status := st, last_connected_at := some now, qr_code := none }
  else
    { i with status := st }

/- ### Webhook Ingestor instance updates (modelled from the spec) -/

/-- Modelled from the spec: `connection.update` — same status vocabulary
mapping as `pollStatus`; also updates `phone_number` and `profile_name`. -/
def webhookConnectionUpdate (raw : String) (phone profile : Option String)
    (i : EvolutionInstance) : EvolutionInstance :=
  { i with status := mapGatewayStatus raw, phone_number := phone, profile_name := profile }

/-- Modelled from the spec: `qrcode.updated` — stores the pushed QR payload
and timestamp; status forced to `qr` unless already `connected`. -/
def webhookQrUpdated (q : String) (t : Nat) (i : EvolutionInstance) :
    EvolutionInstance :=
  { i with
    qr_code := some q
    qr_code_updated_at := some t
    status := if i.status == "connected" then i.status else "qr" }

/- ### Event machine over the Instance row -/

/-- Modelled from the spec: the events that may mutate the Instance row —
user actions handled by the State Reconciler (connect outcome, refresh-QR,
poll, disconnect) and the Webhook Ingestor's push events. -/
inductive GwEvent
  /-- connect succeeded; the gateway answered with a QR payload (`some`) or
  reported the instance already connected (`none`). -/
  | connectOk (qr : Option String)
  /-- connect failed at the gateway (`InstanceCreateFailed`): status remains. -/
  | connectFailed
  | refreshQr (qr : String) (t : Nat)
  | poll (raw : String) (now : Nat)
  | disconnect (gw : GatewayResult)
  | whConnectionUpdate (raw : String) (phone profile : Option String)
  | whQrUpdated (qr : String) (t : Nat)
deriving Repr

/-- Modelled from the spec: one event applied to the Instance row. -/
def stepEvent (i : EvolutionInstance) (e : GwEvent) : EvolutionInstance :=
  match e with
  | .connectOk (some q) => { i with status := "qr", qr_code := some q }
  | .connectOk none => { i with status := "connected" }
  | .connectFailed => i
  | .refreshQr q t => (refreshQrInstance q t i).getD i
  | .poll raw now => pollStatusInstance raw now i
  | .disconnect gw => (disconnectHandler gw i).inst
  | .whConnectionUpdate raw phone profile => webhookConnectionUpdate raw phone profile i
  | .whQrUpdated q t => webhookQrUpdated q t i

/-- Processing a whole event sequence from the implicit initial state. -/
def runEvents (evs : List GwEvent) : EvolutionInstance :=
  evs.foldl stepEvent initialInstance

/- ### Sync Engine (backend, modelled from the spec) -/

/-- Error vocabulary relevant to the sync operations. -/
inductive SyncError
  | notConnected
deriving DecidableEq, Repr

/-- An external contact record as listed by the gateway. -/
structure ExtContact where
  remoteJid : String
  pushName : Option String
deriving DecidableEq, Repr

/-- Result of a sync operation together with the number of gateway calls the
operation performed. -/
structure SyncOutcome (α : Type) where
  result : Except SyncError α
  gatewayCalls : Nat

/-- A raw chat record of the gateway chat list, as destructured by
`loadChats` in the sync page (`remoteJid`, `name`, `pushName`). -/
structure RawChat where
  remoteJid : Option String
  name : Option String
  pushName : Option String
deriving DecidableEq, Repr

/-- The identifier the sync page reads from a raw chat: `c.remoteJid || ""`. -/
def jidOf (c : RawChat) : String :=
  c.remoteJid.getD ""

/-- Substring containment on character lists: some suffix of `l` starts with
`sub`. This is the semantics of JavaScript `String.prototype.includes`. -/
def hasInfix (l sub : List Char) : Bool :=
  match l with
  | [] => sub.isEmpty
  | _ :: rest => sub.isPrefixOf l || hasInfix rest sub

/-- JavaScript `s.includes(sub)` on Lean strings. -/
def stringIncludes (s sub : String) : Bool :=
  hasInfix s.toList sub.toList

/-- From `frontend/src/app/whatsapp/sync/page.tsx` (`loadChats`): the parsed
gateway response is filtered with
`parsed.filter((c) => !(c.remoteJid || "").includes("@g.us"))`. -/
def loadChatsFilter (parsed : List RawChat) : List RawChat :=
  parsed.filter (fun c => !(stringIncludes (jidOf c) "@g.us"))

/-- From `loadChats`: `Array.isArray(result.raw) ? result.raw : []` — a
non-array payload is treated as the empty chat list. -/
def parseChats (raw : Option (List RawChat)) : List RawChat :=
  raw.getD []

/-- Stated from the claim's words, for comparison with `loadChatsFilter`:
keep exactly the chats whose identifier does not END with the group marker
"@g.us" (suffix reading of the group-conversation pattern). -/
def suffixFilteredChats (parsed : List RawChat) : List RawChat :=
  parsed.filter (fun c => !(("@g.us".toList).isSuffixOf (jidOf c).toList))

/-- Modelled from the spec: `syncContacts(user)` — requires Instance status
`connected`; otherwise fails with `NotConnected` and performs no gateway
call; when connected it performs the single list-contacts gateway call and
reports the count synced. -/
def syncContacts (i : EvolutionInstance) (gwContacts : List ExtContact) :
    SyncOutcome Nat :=
  if i.status == "connected" then
    { result := Except.ok gwContacts.length, gatewayCalls := 1 }
  else
    { result := Except.error SyncError.notConnected, gatewayCalls := 0 }

/-- Modelled from the spec: `syncChats(user)` — requires Instance status
`connected`; otherwise fails with `NotConnected` and performs no gateway
call; when connected it performs the single list-chats gateway call and
returns the transient chat list with group conversations filtered out. -/
def syncChatsOp (i : EvolutionInstance) (gwChats : List RawChat) :
    SyncOutcome (List RawChat) :=
  if i.status == "connected" then
    { result := Except.ok (loadChatsFilter gwChats), gatewayCalls := 1 }
  else
    { result := Except.error SyncError.notConnected, gatewayCalls := 0 }

/-- Modelled from the spec: `syncMessages(user, contact, limit)` — requires
Instance status `connected`; otherwise fails with `NotConnected` and performs
no gateway call; when connected it performs the single fetch-messages gateway
call and feeds every fetched message through the dedup/upsert layer. -/
def syncMessagesOp (i : EvolutionInstance) (store : List StoredMessage)
    (gwMsgs : List StoredMessage) : SyncOutcome (List StoredMessage × Nat) :=
  if i.status == "connected" then
    { result := Except.ok (upsertAllMessages store gwMsgs), gatewayCalls := 1 }
  else
    { result := Except.error SyncError.notConnected, gatewayCalls := 0 }

/- ### Frontend API client, from `frontend/src/lib/api.ts` -/

/-- From `evolutionApi.syncMessages`: the request path is
`/evolution/sync/messages/{contactId}?limit={limit}` where the TypeScript
parameter declaration `limit: number = 30` supplies 30 when the caller omits
the argument (`none` models an omitted argument). -/
def syncMessagesRequestPath (contactId : Nat) (limit : Option Nat) : String :=
  "/evolution/sync/messages/" ++ toString contactId ++ "?limit=" ++ toString (limit.getD 30)

/-- A parsed JSON response body: the backend `detail` field (absent when the
object carries none) plus the rest of the payload, kept opaque. -/
structure JsonBody where
  detail : Option String
  payload : String
deriving DecidableEq, Repr

/-- An exception value as discriminated by `networkErrorToMessage`: a
`TypeError` with its message, some other `Error` with its message, or a
thrown non-`Error` value. -/
inductive JsError
  | typeError (msg : String)
  | otherError (msg : String)
  | nonError
deriving DecidableEq, Repr

/-- The fixed connectivity message of `networkErrorToMessage`. -/
def connectivityMsg : String :=
  "Не удалось подключиться к серверу. Проверьте подключение к интернету и что backend запущен."

/-- The fixed unknown-error message of `networkErrorToMessage`. -/
def unknownErrorMsg : String :=
  "Произошла неизвестная ошибка"

/-- The fixed default message used by `authFetch` for a non-2xx response
whose body is unparsable or carries no usable `detail`. -/
def defaultRequestErrMsg : String :=
  "Ошибка запроса"

/-- From `networkErrorToMessage` in `frontend/src/lib/api.ts`: a `TypeError`
reading "Failed to fetch" becomes the fixed connectivity message; any other
`Error` keeps its message; a non-`Error` value becomes the fixed
unknown-error message. -/
def networkErrorToMessage : JsError → String
  | .typeError m => if m == "Failed to fetch" then connectivityMsg else m
  | .otherError m => m
  | .nonError => unknownErrorMsg

/-- JavaScript `v || d` on an optional string: `undefined`, `null` and the
empty string all fall back to the default. -/
def jsOrDefault (v : Option String) (d : String) : String :=
  match v with
  | some s => if s == "" then d else s
  | none => d

/-- How one `fetch` call inside `authFetch` can go: the fetch promise itself
rejects with some exception, or an HTTP response arrives with an ok flag and
a body whose JSON parse either succeeds (`some`) or fails (`none`, with
`parseMsg` the JSON parse error's message). -/
inductive FetchOutcome
  | fetchThrow (e : JsError)
  | resp (ok : Bool) (body : Option JsonBody) (parseMsg : String)
deriving DecidableEq, Repr

/-- What the caller of `authFetch` observes: a resolved parsed body, or a
rejection carrying a message; `raw` records whether the rejection escaped
`authFetch`'s catch block unwrapped (the `return response.json()` path is
outside the protection of the try/catch because the promise is returned
without `await`). -/
inductive FetchResult
  | ok (v : JsonBody)
  | err (raw : Bool) (msg : String)
deriving DecidableEq, Repr

/-- From `authFetch` in `frontend/src/lib/api.ts`: a fetch-level exception is
rethrown as `new Error(networkErrorToMessage(err))`; a non-2xx response has
its body parsed (`.catch` substituting `{detail: "Ошибка запроса"}` when the
parse fails), and `new Error(error.detail || "Ошибка запроса")` is thrown —
that `Error` is caught by the outer catch and rethrown with the same message;
a 2xx response returns `response.json()` directly, so a parse failure there
rejects with the raw JSON parse error (the promise is returned without
`await`, escaping the catch). -/
def authFetch : FetchOutcome → FetchResult
  | .fetchThrow e => .err false (networkErrorToMessage e)
  | .resp true (some v) _ => .ok v
  | .resp true none parseMsg => .err true parseMsg
  | .resp false body _ =>
      let eb := body.getD { detail := some defaultRequestErrMsg, payload := "" }
      .err false (networkErrorToMessage (.otherError (jsOrDefault eb.detail defaultRequestErrMsg)))

/-- Stated from the amended claim's words, for comparison with `authFetch`:
a 2xx response resolves to its parsed body; a 2xx response with an unparsable
body rejects, unwrapped, with the JSON parse error's message; a non-2xx
response rejects with the backend `detail` (falling back to the fixed default
when the body is unparsable or the `detail` field is absent or empty); the
network-failure `TypeError` rejects with the fixed connectivity message; any
other thrown `Error` rejects with its own message; a thrown non-`Error`
rejects with the fixed unknown-error message. -/
def authFetchSpecified : FetchOutcome → FetchResult
  | .resp true (some v) _ => .ok v
  | .resp true none parseMsg => .err true parseMsg
  | .resp false (some body) _ => .err false (jsOrDefault body.detail defaultRequestErrMsg)
  | .resp false none _ => .err false defaultRequestErrMsg
  | .fetchThrow (.typeError m) =>
      .err false (if m == "Failed to fetch" then connectivityMsg else m)
  | .fetchThrow (.otherError m) => .err false m
  | .fetchThrow .nonError => .err false unknownErrorMsg

/- ### WhatsApp connection page, from `frontend/src/app/whatsapp/page.tsx` -/

/-- The `InstanceStatus` payload of `/evolution/instance/status` as typed in
`frontend/src/lib/api.ts`. -/
structure InstanceStatusRec where
  instance_name : String
  status : String
  phone_number : Option String
  profile_name : Option String
  qr_code : Option String
  last_connected_at : Option String
deriving DecidableEq, Repr

/-- The React state of the WhatsApp connection page that `fetchStatus`
touches: the stored instance status, the two loading flags and the displayed
error. -/
structure WhatsAppPageState where
  status : Option InstanceStatusRec
  statusLoading : Bool
  actionLoading : Bool
  error : Option String
deriving DecidableEq, Repr

/-- From `fetchStatus` in the WhatsApp page: on success the fetched payload
is stored and the error display is cleared; on failure the exception is only
logged; either way the `finally` block clears the loading flag. -/
def fetchStatusStep (outcome : Except String InstanceStatusRec)
    (s : WhatsAppPageState) : WhatsAppPageState :=
  match outcome with
  | .ok d => { s with status := some d, error := none, statusLoading := false }
  | .error _ => { s with statusLoading := false }

/- ### Helper lemmas -/

theorem find?_append_singleton {p : StoredMessage → Bool} {l : List StoredMessage}
    (h : l.find? p = none) (m : StoredMessage) :
    (l ++ [m]).find? p = if p m then some m else none := by
  induction l with
  | nil =>
      simp only [List.nil_append, List.find?]
      cases p m <;> simp
  | cons a l ih =>
      rw [List.find?] at h
      cases hpa : p a with
      | true => simp [hpa] at h
      | false =>
          simp only [hpa] at h
          simpa [List.find?, hpa] using ih h

theorem filter_eq_nil_of_find?_none {p : StoredMessage → Bool} {l : List StoredMessage}
    (h : l.find? p = none) : l.filter p = [] := by
  rw [List.find?_eq_none] at h
  exact List.filter_eq_nil_iff.mpr h

theorem hasInfix_iff_isInfix (l sub : List Char) :
    hasInfix l sub = true ↔ sub <:+: l := by
  induction l with
  | nil =>
      rw [hasInfix]
      simp [List.isEmpty_iff, List.infix_nil]
  | cons a rest ih =>
      rw [hasInfix]
      simp [List.infix_cons_iff, ih, List.isPrefixOf_iff_prefix]

theorem mapGatewayStatus_canonical (raw : String) :
    isCanonical (mapGatewayStatus raw) = true := by
  unfold mapGatewayStatus isCanonical
  by_cases h1 : raw == "open" <;> by_cases h2 : raw == "connecting" <;>
    by_cases h3 : raw == "close" <;> simp [h1, h2, h3]

theorem stepEvent_preserves_canonical (i : EvolutionInstance) (e : GwEvent)
    (h : isCanonical i.status = true) : isCanonical (stepEvent i e).status = true := by
  cases e with
  | connectOk qr => cases qr <;> simp [stepEvent, isCanonical]
  | connectFailed => exact h
  | refreshQr q t =>
      simp only [stepEvent, refreshQrInstance]
      by_cases hs : (i.status == "qr" || i.status == "connecting") = true
      · rw [if_pos hs]
        simp [isCanonical]
      · rw [if_neg hs]
        simpa using h
  | poll raw now =>
      unfold stepEvent pollStatusInstance
      by_cases hs : (mapGatewayStatus raw == "connected" && i.status != "connected") = true <;>
        simp [hs, mapGatewayStatus_canonical raw]
  | disconnect gw => simp [stepEvent, disconnectHandler, disconnectInstance, isCanonical]
  | whConnectionUpdate raw phone profile =>
      simp [stepEvent, webhookConnectionUpdate, mapGatewayStatus_canonical raw]
  | whQrUpdated q t =>
      unfold stepEvent webhookQrUpdated
      by_cases hs : (i.status == "connected") = true
      · simpa [hs] using h
      · simp [hs, isCanonical]

/- ### Claim theorems -/

/-- Claim C1: a second upsert with the same external message identifier is a
no-op: the store is unchanged, the returned record is the first-committed
row, and the rows carrying that identifier are exactly the first upsert's
row with its fields unchanged. -/
theorem upsertMessage_dedup (store : List StoredMessage) (m1 m2 : StoredMessage)
    (habsent : findByKey store m1.evolution_key_id = none)
    (hkey : m2.evolution_key_id = m1.evolution_key_id) :
    (upsertMessage (upsertMessage store m1).1 m2).1 = (upsertMessage store m1).1 ∧
    (upsertMessage (upsertMessage store m1).1 m2).2 = m1 ∧
    ((upsertMessage store m1).1.filter
      (fun m => m.evolution_key_id == m1.evolution_key_id)) = [m1] := by
  have hself : (m1.evolution_key_id == m1.evolution_key_id) = true := beq_self_eq_true _
  have hstep1 : (upsertMessage store m1).1 = store ++ [m1] := by
    simp [upsertMessage, habsent]
  have hfind : findByKey (store ++ [m1]) m2.evolution_key_id = some m1 := by
    unfold findByKey at habsent ⊢
    rw [hkey, find?_append_singleton habsent m1, hself]
    simp
  refine ⟨?_, ?_, ?_⟩
  · rw [hstep1]
    simp [upsertMessage, hfind]
  · rw [hstep1]
    simp [upsertMessage, hfind]
  · rw [hstep1, List.filter_append]
    rw [filter_eq_nil_of_find?_none habsent]
    simp [hself]

/-- Claim C1 witness: two concrete upserts carrying the same identifier but
different content, applied to an empty store. -/
theorem upsertMessage_dedup_witness :
    findByKey [] "KEY1" = none ∧
    (upsertMessage
        (upsertMessage []
          { evolution_key_id := "KEY1", msgType := "text", content := some "hello"
            is_outbound := false, deliveryStatus := "received", timestamp := some 10
            source := "evolution_api", contact_id := 1 }).1
        { evolution_key_id := "KEY1", msgType := "text", content := some "DIFFERENT"
          is_outbound := true, deliveryStatus := "sent", timestamp := some 20
          source := "evolution_api", contact_id := 2 }).1
      = (upsertMessage []
          { evolution_key_id := "KEY1", msgType := "text", content := some "hello"
            is_outbound := false, deliveryStatus := "received", timestamp := some 10
            source := "evolution_api", contact_id := 1 }).1 := by
  refine ⟨by decide, ?_⟩
  exact (upsertMessage_dedup []
    { evolution_key_id := "KEY1", msgType := "text", content := some "hello"
      is_outbound := false, deliveryStatus := "received", timestamp := some 10
      source := "evolution_api", contact_id := 1 }
    { evolution_key_id := "KEY1", msgType := "text", content := some "DIFFERENT"
      is_outbound := true, deliveryStatus := "sent", timestamp := some 20
      source := "evolution_api", contact_id := 2 }
    (by decide) (by decide)).1

/-- Claim C2: after processing any sequence of user actions, status polls and
webhook events, the Instance status is exactly one of the four canonical
states — never an unmapped gateway vocabulary value. -/
theorem runEvents_status_canonical (evs : List GwEvent) :
    isCanonical (runEvents evs).status = true := by
  unfold runEvents
  have general : ∀ (l : List GwEvent) (i : EvolutionInstance),
      isCanonical i.status = true → isCanonical (l.foldl stepEvent i).status = true := by
    intro l
    induction l with
    | nil => intro i h; exact h
    | cons e l ih =>
        intro i h
        exact ih (stepEvent i e) (stepEvent_preserves_canonical i e h)
  exact general evs initialInstance (by decide)

/-- Claim C3: whatever the gateway logout call returns — including
`GatewayUnavailable` — `disconnect` leaves the Instance disconnected with
`qr_code` and `phone_number` cleared, surfaces no blocking error, and a
gateway-side failure is logged. -/
theorem disconnectHandler_unconditional (gw : GatewayResult) (i : EvolutionInstance) :
    (disconnectHandler gw i).inst.status = "disconnected" ∧
    (disconnectHandler gw i).inst.qr_code = none ∧
    (disconnectHandler gw i).inst.phone_number = none ∧
    (disconnectHandler gw i).isError = false ∧
    (disconnectHandler GatewayResult.gatewayUnavailable i).loggedGatewayFailure = true :=
  ⟨rfl, rfl, rfl, rfl, rfl⟩

/-- Claim C4: while the Instance status is not `connected`, each of
`syncContacts`, `syncChats` and `syncMessages` fails with `NotConnected` and
performs zero gateway calls. -/
theorem syncOps_require_connected (i : EvolutionInstance)
    (gwContacts : List ExtContact) (gwChats : List RawChat)
    (store gwMsgs : List StoredMessage)
    (h : ¬ i.status = "connected") :
    syncContacts i gwContacts
      = { result := Except.error SyncError.notConnected, gatewayCalls := 0 } ∧
    syncChatsOp i gwChats
      = { result := Except.error SyncError.notConnected, gatewayCalls := 0 } ∧
    syncMessagesOp i store gwMsgs
      = { result := Except.error SyncError.notConnected, gatewayCalls := 0 } := by
  have hb : (i.status == "connected") = false := by
    simpa using h
  exact ⟨by simp [syncContacts, hb], by simp [syncChatsOp, hb], by simp [syncMessagesOp, hb]⟩

/-- Claim C4 witness: a concrete instance still in the `qr` state rejects all
three sync operations without a gateway call. -/
theorem syncOps_require_connected_witness :
    ¬ (({ status := "qr", qr_code := some "QR", qr_code_updated_at := some 1
          phone_number := none, profile_name := none
          last_connected_at := none } : EvolutionInstance).status = "connected") ∧
    (syncContacts
        { status := "qr", qr_code := some "QR", qr_code_updated_at := some 1
          phone_number := none, profile_name := none, last_connected_at := none }
        [{ remoteJid := "79001@s.whatsapp.net", pushName := some "A" }]
      = { result := Except.error SyncError.notConnected, gatewayCalls := 0 }) := by
  refine ⟨by decide, ?_⟩
  exact (syncOps_require_connected
    { status := "qr", qr_code := some "QR", qr_code_updated_at := some 1
      phone_number := none, profile_name := none, last_connected_at := none }
    [{ remoteJid := "79001@s.whatsapp.net", pushName := some "A" }]
    [] [] [] (by decide)).1

/-- Claim C5 counterexample: the chat whose identifier is "x@g.us0" does not
carry the "@g.us" suffix, so the claim as stated retains it, but `loadChats`
(substring containment test) drops it. -/
theorem loadChatsFilter_suffix_counterexample :
    loadChatsFilter [{ remoteJid := some "x@g.us0", name := none, pushName := none }] = [] ∧
    ("@g.us".toList.isSuffixOf
      (jidOf { remoteJid := some "x@g.us0", name := none, pushName := none }).toList) = false ∧
    suffixFilteredChats [{ remoteJid := some "x@g.us0", name := none, pushName := none }]
      = [{ remoteJid := some "x@g.us0", name := none, pushName := none }] := by
  refine ⟨by decide, by decide, by decide⟩

/-- Claim C5 (amended): the chat list produced by `loadChats` contains
exactly those chats of the gateway response whose identifier (empty when
absent) does not CONTAIN the group marker "@g.us" as a substring. -/
theorem loadChatsFilter_membership (l : List RawChat) (c : RawChat) :
    c ∈ loadChatsFilter l ↔ c ∈ l ∧ ¬ ("@g.us".toList <:+: (jidOf c).toList) := by
  have hchar : stringIncludes (jidOf c) "@g.us" = true ↔
      "@g.us".toList <:+: (jidOf c).toList :=
    hasInfix_iff_isInfix _ _
  rw [loadChatsFilter, List.mem_filter, Bool.not_eq_true', Bool.eq_false_iff]
  exact and_congr_right fun _ => not_congr hchar

/-- Claim C6: when the caller omits the limit argument, the sync-messages
request carries `limit=30`; a supplied limit overrides the default. -/
theorem syncMessagesRequestPath_default (c : Nat) (n : Nat) :
    syncMessagesRequestPath c none
      = "/evolution/sync/messages/" ++ toString c ++ "?limit=" ++ "30" ∧
    syncMessagesRequestPath c (some n)
      = "/evolution/sync/messages/" ++ toString c ++ "?limit=" ++ toString n := by
  constructor
  · rfl
  · rfl

/-- Claim C7: from a status in {qr, connecting}, a successful QR refresh
stores the new payload and its timestamp, leaves the status at `qr`, and
changes no other Instance field. -/
theorem refreshQrInstance_frame (q : String) (t : Nat) (i : EvolutionInstance)
    (h : i.status = "qr" ∨ i.status = "connecting") :
    ∃ j, refreshQrInstance q t i = some j ∧
      j.status = "qr" ∧
      j.qr_code = some q ∧
      j.qr_code_updated_at = some t ∧
      j.phone_number = i.phone_number ∧
      j.profile_name = i.profile_name ∧
      j.last_connected_at = i.last_connected_at := by
  have hcond : (i.status == "qr" || i.status == "connecting") = true := by
    rcases h with h | h <;> simp [h]
  refine ⟨{ i with status := "qr", qr_code := some q, qr_code_updated_at := some t },
    ?_, rfl, rfl, rfl, rfl, rfl, rfl⟩
  rw [refreshQrInstance, if_pos hcond]

/-- Claim C7 witness: a concrete instance in the `qr` state refreshed with a
new payload. -/
theorem refreshQrInstance_frame_witness :
    (({ status := "qr", qr_code := some "OLD", qr_code_updated_at := some 1
        phone_number := some "79001234567", profile_name := some "User"
        last_connected_at := some 5 } : EvolutionInstance).status = "qr" ∨
      ({ status := "qr", qr_code := some "OLD", qr_code_updated_at := some 1
         phone_number := some "79001234567", profile_name := some "User"
         last_connected_at := some 5 } : EvolutionInstance).status = "connecting") ∧
    (∃ j, refreshQrInstance "NEWQR" 42
        { status := "qr", qr_code := some "OLD", qr_code_updated_at := some 1
          phone_number := some "79001234567", profile_name := some "User"
          last_connected_at := some 5 } = some j ∧
      j.status = "qr" ∧
      j.qr_code = some "NEWQR" ∧
      j.qr_code_updated_at = some 42 ∧
      j.phone_number = some "79001234567" ∧
      j.profile_name = some "User" ∧
      j.last_connected_at = some 5) := by
  refine ⟨Or.inl rfl, ?_⟩
  exact refreshQrInstance_frame "NEWQR" 42
    { status := "qr", qr_code := some "OLD", qr_code_updated_at := some 1
      phone_number := some "79001234567", profile_name := some "User"
      last_connected_at := some 5 } (Or.inl rfl)

/-- Claim C8: with the gateway answering the same both times, a second
status poll is a no-op — both for the backend reconciliation
(`pollStatusInstance`) and for the page handler `fetchStatus`
(`fetchStatusStep`). -/
theorem pollStatus_idempotent (raw : String) (now : Nat) (i : EvolutionInstance)
    (o : Except String InstanceStatusRec) (s : WhatsAppPageState) :
    pollStatusInstance raw now (pollStatusInstance raw now i) = pollStatusInstance raw now i ∧
    fetchStatusStep o (fetchStatusStep o s) = fetchStatusStep o s := by
  constructor
  · unfold pollStatusInstance
    simp only []
    by_cases hc : (mapGatewayStatus raw == "connected") = true
    · by_cases hi : (i.status != "connected") = true
      · have hst : mapGatewayStatus raw = "connected" := by simpa using hc
        simp [hc, hi, hst]
      · have hst : mapGatewayStatus raw = "connected" := by simpa using hc
        simp [hc, hi, hst]
    · have hcf : (mapGatewayStatus raw == "connected") = false := by
        simpa using hc
      simp [hcf]
  · cases o with
    | ok d => rfl
    | error m => rfl

/-- Claim C9 counterexample: a 2xx response whose body fails to parse rejects
with the raw JSON parse error message — not the parsed body, not a backend
`detail`, and none of the three fixed messages. -/
theorem authFetch_ok_unparsable_counterexample :
    authFetch (FetchOutcome.resp true none "Unexpected end of JSON input")
      = FetchResult.err true "Unexpected end of JSON input" ∧
    "Unexpected end of JSON input" ≠ defaultRequestErrMsg ∧
    "Unexpected end of JSON input" ≠ connectivityMsg ∧
    "Unexpected end of JSON input" ≠ unknownErrorMsg :=
  ⟨rfl, by decide, by decide, by decide⟩

/-- Claim C9 (amended): `authFetch` realizes exactly the specified outcome
table — parsed body for a parsable 2xx response; raw JSON parse error for an
unparsable 2xx response; backend `detail` with the fixed default fallback for
a non-2xx response; the fixed connectivity message for the network-failure
`TypeError`; the thrown error's own message otherwise; the fixed
unknown-error message for a thrown non-`Error`. -/
theorem authFetch_matches_specified (o : FetchOutcome) :
    authFetch o = authFetchSpecified o := by
  cases o with
  | fetchThrow e => cases e <;> rfl
  | resp ok body parseMsg =>
      cases ok <;> cases body <;>
        simp [authFetch, authFetchSpecified, networkErrorToMessage, jsOrDefault,
          defaultRequestErrMsg]

/-- Claim C10: when the status poll fails, `fetchStatus` leaves the stored
instance status and the displayed error untouched and only clears the
loading flag. -/
theorem fetchStatus_failure_preserves_state (s : WhatsAppPageState) (m : String) :
    (fetchStatusStep (Except.error m) s).status = s.status ∧
    (fetchStatusStep (Except.error m) s).error = s.error ∧
    (fetchStatusStep (Except.error m) s).statusLoading = false ∧
    (fetchStatusStep (Except.error m) s).actionLoading = s.actionLoading :=
  ⟨rfl, rfl, rfl, rfl⟩
